import Mathlib

/-!
Shallow embedding of the VLANVision network discovery and topology mapping
core (`src/network/topology_mapper.py` and `src/network/discovery.py`),
with theorems settling the specification claims about it.
-/

namespace VLANVision

/-- `leadsWith pat hay` is true when the character list `pat` is an initial
segment of `hay`. -/
def leadsWith : List Char → List Char → Bool
  | [], _ => true
  | _ :: _, [] => false
  | p :: ps, h :: hs => p == h && leadsWith ps hs

/-- `occursIn pat hay` is Python's substring test `pat in hay` on character
lists: `pat` occurs contiguously somewhere in `hay`. -/
def occursIn (pat : List Char) : List Char → Bool
  | [] => pat.isEmpty
  | c :: hs => leadsWith pat (c :: hs) || occursIn pat hs

/-- Python's `pat in hay` substring test on strings. -/
def strContains (hay pat : String) : Bool :=
  occursIn pat.toList hay.toList

/-- ASCII lowercase of one character, modelling Python's `str.lower()` on the
ASCII system descriptions and hostnames this code handles. -/
def charLower (c : Char) : Char :=
  if 'A' ≤ c && c ≤ 'Z' then Char.ofNat (c.toNat + 32) else c

/-- ASCII uppercase of one character. -/
def charUpper (c : Char) : Char :=
  if 'a' ≤ c && c ≤ 'z' then Char.ofNat (c.toNat - 32) else c

/-- Python's `str.lower()` (ASCII model). -/
def strLower (s : String) : String :=
  String.mk (s.toList.map charLower)

/-- Device roles, from the `DeviceRole` enum of `topology_mapper.py`. -/
inductive DeviceRole
  | core
  | distribution
  | access
  | edge
  | internet
  | server
  | endpoint
deriving DecidableEq, Repr

/-- The `.value` string of each `DeviceRole` enum member. -/
def DeviceRole.value : DeviceRole → String
  | .core => "core"
  | .distribution => "distribution"
  | .access => "access"
  | .edge => "edge"
  | .internet => "internet"
  | .server => "server"
  | .endpoint => "endpoint"

/-- Link types, from the `LinkType` enum of `topology_mapper.py`. -/
inductive LinkType
  | trunk
  | access
  | aggregate
  | uplink
  | crossconnect
  | wireless
deriving DecidableEq, Repr

/-- `TopologyMapper._identify_device_type` (topology_mapper.py lines 460-499):
classify a system description into `(device_type, vendor)` by a chain of
case-insensitive substring checks.  A matched vendor guard whose sub-chain
finds no device type falls through to the final
`('network_device', 'Unknown')` return, bypassing the remaining `elif` arms. -/
def identifyDeviceType (sysDescription : String) : String × String :=
  let d := strLower sysDescription
  if strContains d "cisco" then
    if strContains d "catalyst" || strContains d "switch" then ("switch", "Cisco")
    else if strContains d "router" || strContains d "ios xr" then ("router", "Cisco")
    else if strContains d "asa" || strContains d "firewall" then ("firewall", "Cisco")
    else if strContains d "access point" || strContains d "ap" then ("access_point", "Cisco")
    else ("network_device", "Unknown")
  else if strContains d "juniper" || strContains d "junos" then
    if strContains d "ex" then ("switch", "Juniper")
    else if strContains d "mx" || strContains d "srx" then ("router", "Juniper")
    else ("network_device", "Unknown")
  else if strContains d "arista" then ("switch", "Arista")
  else if strContains d "hp" || strContains d "aruba" then
    if strContains d "switch" then ("switch", "HP")
    else if strContains d "ap" then ("access_point", "HP")
    else ("network_device", "Unknown")
  else if strContains d "switch" then ("switch", "Unknown")
  else if strContains d "router" then ("router", "Unknown")
  else ("network_device", "Unknown")

/-- `TopologyMapper._determine_device_role` (topology_mapper.py lines 501-525):
determine a device's topology role from hostname substring patterns, then
device-type overrides, defaulting to `ACCESS`.  The `ip_address` parameter is
carried but unused, as in the source. -/
def determineDeviceRole (hostname deviceType ipAddress : String) : DeviceRole :=
  let h := strLower hostname
  if strContains h "core" || strContains h "backbone" then .core
  else if strContains h "dist" || strContains h "distribution" then .distribution
  else if strContains h "access" || strContains h "acc" then .access
  else if strContains h "edge" || strContains h "dmz" || strContains h "internet" then .edge
  else if deviceType == "server" then .server
  else if deviceType == "workstation" || deviceType == "pc" || deviceType == "laptop" then .endpoint
  else if deviceType == "router" then .edge
  else if deviceType == "switch" then .access
  else .access

/-- `NetworkDiscovery.DEVICE_PATTERNS` (discovery.py lines 53-60), in the
dictionary's insertion order. -/
def DEVICE_PATTERNS : List (String × List String) :=
  [("cisco", ["Cisco", "IOS", "Catalyst"]),
   ("juniper", ["Juniper", "JUNOS"]),
   ("arista", ["Arista", "EOS"]),
   ("hp", ["HP", "ProCurve", "Aruba"]),
   ("dell", ["Dell", "Force10"]),
   ("mikrotik", ["MikroTik", "RouterOS"])]

/-- Python's `str.title()` restricted to single-word keys, as applied to the
manufacturer keys of `DEVICE_PATTERNS`. -/
def titleCase (s : String) : String :=
  match s.toList with
  | [] => ""
  | c :: cs => String.mk (charUpper c :: cs.map charLower)

/-- The device-type sub-chain of `NetworkDiscovery._identify_device`
(discovery.py lines 301-310), run once a manufacturer pattern has matched. -/
def classifyTypeFromDescription (dl : String) : String :=
  if strContains dl "switch" || strContains dl "catalyst" then "switch"
  else if strContains dl "router" || strContains dl "ios xr" then "router"
  else if strContains dl "firewall" || strContains dl "asa" || strContains dl "pix" then "firewall"
  else if strContains dl "access point" || strContains dl "ap" then "access_point"
  else "network_device"

/-- `NetworkDiscovery._identify_device` (discovery.py lines 293-314): scan the
manufacturer patterns in order; the first matching pattern fixes the
manufacturer, then the description chooses the device type.  No pattern
matching at all yields `('unknown', 'unknown')`.  The `object_id` argument is
carried but unused, as in the source. -/
def identifyDevice (description objectId : String) : String × String :=
  let dl := strLower description
  match DEVICE_PATTERNS.find? (fun mp => mp.2.any (fun pat => strContains dl (strLower pat))) with
  | some mp => (classifyTypeFromDescription dl, titleCase mp.1)
  | none => ("unknown", "unknown")

/-- Every substring keyword appearing in a vendor guard of either classifier:
the `DEVICE_PATTERNS` entries of `discovery.py` (lowercased) and the vendor
and generic guard keywords of `_identify_device_type` in
`topology_mapper.py`. -/
def vendorRuleKeywords : List String :=
  ["cisco", "ios", "catalyst", "juniper", "junos", "arista", "eos",
   "hp", "procurve", "aruba", "dell", "force10", "mikrotik", "routeros",
   "switch", "router"]

/-- A description matches none of the vendor keyword rules of either
classifier: no keyword occurs in its lowercased form. -/
def matchesNoVendorRule (s : String) : Bool :=
  vendorRuleKeywords.all (fun kw => !(strContains (strLower s) kw))

/-- C3 counterexample: the string "zzz" matches none of the vendor keyword
rules, yet the topology mapper's classifier returns
`("network_device", "Unknown")`, not `("unknown", "unknown")` as the claim
states. -/
theorem c3_counterexample :
    matchesNoVendorRule "zzz" = true ∧
    identifyDeviceType "zzz" = ("network_device", "Unknown") ∧
    identifyDeviceType "zzz" ≠ ("unknown", "unknown") := by decide

/-- C3 (amended): on a description matching none of the vendor keyword rules,
the discovery classifier `_identify_device` returns `("unknown", "unknown")`
while the topology mapper's classifier `_identify_device_type` returns
`("network_device", "Unknown")`. -/
theorem c3_no_match_results (s oid : String) (h : matchesNoVendorRule s = true) :
    identifyDevice s oid = ("unknown", "unknown") ∧
    identifyDeviceType s = ("network_device", "Unknown") := by
  simp only [matchesNoVendorRule, vendorRuleKeywords, List.all_cons, List.all_nil,
    Bool.and_true, Bool.and_eq_true, Bool.not_eq_true'] at h
  obtain ⟨h1, h2, h3, h4, h5, h6, h7, h8, h9, h10, h11, h12, h13, h14, h15, h16⟩ := h
  have eCisco : strLower "Cisco" = "cisco" := rfl
  have eIOS : strLower "IOS" = "ios" := rfl
  have eCat : strLower "Catalyst" = "catalyst" := rfl
  have eJun : strLower "Juniper" = "juniper" := rfl
  have eJunos : strLower "JUNOS" = "junos" := rfl
  have eAri : strLower "Arista" = "arista" := rfl
  have eEOS : strLower "EOS" = "eos" := rfl
  have eHP : strLower "HP" = "hp" := rfl
  have ePro : strLower "ProCurve" = "procurve" := rfl
  have eAru : strLower "Aruba" = "aruba" := rfl
  have eDell : strLower "Dell" = "dell" := rfl
  have eF10 : strLower "Force10" = "force10" := rfl
  have eMik : strLower "MikroTik" = "mikrotik" := rfl
  have eRos : strLower "RouterOS" = "routeros" := rfl
  constructor
  · simp only [identifyDevice, DEVICE_PATTERNS, List.find?, List.any_cons, List.any_nil,
      eCisco, eIOS, eCat, eJun, eJunos, eAri, eEOS, eHP, ePro, eAru, eDell, eF10, eMik, eRos,
      h1, h2, h3, h4, h5, h6, h7, h8, h9, h10, h11, h12, h13, h14,
      Bool.or_false, Bool.or_self]
  · simp [identifyDeviceType, h1, h4, h5, h6, h8, h10, h15, h16]

/-- C3 witness: the amended statement instantiated at the concrete
no-match description "zzz". -/
theorem c3_no_match_results_witness :
    identifyDevice "zzz" "" = ("unknown", "unknown") ∧
    identifyDeviceType "zzz" = ("network_device", "Unknown") :=
  c3_no_match_results "zzz" "" (by decide)

/-- C8: for system description "Cisco IOS Software, Catalyst" the classifier
yields device_type "switch" and vendor "Cisco", and for hostname "core-sw1"
role determination yields the CORE role, whose exported value is "core". -/
theorem c8_scenario_core_switch :
    identifyDeviceType "Cisco IOS Software, Catalyst" = ("switch", "Cisco") ∧
    determineDeviceRole "core-sw1" "switch" "10.0.0.1" = DeviceRole.core ∧
    (determineDeviceRole "core-sw1" "switch" "10.0.0.1").value = "core" := by decide

/-- Tail of `TopologyMapper._get_mac_table_neighbors` (topology_mapper.py
line 280): the ARP-derived candidate list is truncated to at most 10 entries
("Limit to prevent too many discoveries"). -/
def macTableNeighbors (arpCandidates : List String) : List String :=
  arpCandidates.take 10

/-- `TopologyMapper._discover_neighbors` (topology_mapper.py lines 174-191).
The three SNMP sources are supplied as the environment's answers for the
probed device: the CDP cache result, the LLDP table result, and the raw
ARP-derived candidate list.  CDP and LLDP results are concatenated; only when
that concatenation is empty is the MAC/ARP fallback consulted; finally
Python's `list(set(...))` deduplication is modelled as `List.dedup`. -/
def discoverNeighbors (cdp lldp arpCandidates : List String) : List String :=
  let neighbors := cdp ++ lldp
  let neighbors := if neighbors.isEmpty then neighbors ++ macTableNeighbors arpCandidates
                   else neighbors
  neighbors.dedup

/-- C1 counterexample: with a CDP cache reporting 10.0.0.2 and an LLDP table
reporting 10.0.0.3, the neighbor list contains entries from both sources at
once, so no single source accounts for the whole result — the sources are
merged, not tried as a strict fallback chain. -/
theorem c1_counterexample :
    ¬ ((∀ x ∈ discoverNeighbors ["10.0.0.2"] ["10.0.0.3"] [], x ∈ ["10.0.0.2"]) ∨
       (∀ x ∈ discoverNeighbors ["10.0.0.2"] ["10.0.0.3"] [], x ∈ ["10.0.0.3"]) ∨
       (∀ x ∈ discoverNeighbors ["10.0.0.2"] ["10.0.0.3"] [], x ∈ ([] : List String))) := by
  decide

/-- C1 (amended): the CDP and LLDP sources are always merged — whenever either
is non-empty the result is exactly the deduplicated union of the two, and the
MAC/ARP-derived fallback contributes only when both CDP and LLDP yield no
neighbors, in which case the result is exactly its first 10 candidates,
deduplicated. -/
theorem c1_neighbor_sources (cdp lldp arpCandidates : List String) :
    (cdp ≠ [] ∨ lldp ≠ [] →
      ∀ x, x ∈ discoverNeighbors cdp lldp arpCandidates ↔ (x ∈ cdp ∨ x ∈ lldp)) ∧
    (cdp = [] → lldp = [] →
      ∀ x, x ∈ discoverNeighbors cdp lldp arpCandidates ↔ x ∈ arpCandidates.take 10) := by
  constructor
  · intro hne x
    have hcl : (cdp ++ lldp).isEmpty = false := by
      rcases hne with h | h
      · cases cdp with
        | nil => exact absurd rfl h
        | cons a t => rfl
      · cases cdp with
        | nil =>
          cases lldp with
          | nil => exact absurd rfl h
          | cons a t => rfl
        | cons a t => rfl
    simp [discoverNeighbors, hcl, List.mem_dedup, List.mem_append]
  · intro hc hl x
    subst hc; subst hl
    simp [discoverNeighbors, macTableNeighbors, List.mem_dedup]

/-- C1 witness: the amended statement instantiated on concrete source lists,
covering both the merged CDP/LLDP case and the MAC/ARP fallback case. -/
theorem c1_neighbor_sources_witness :
    ("10.0.0.3" ∈ discoverNeighbors ["10.0.0.2"] ["10.0.0.3"] ["10.0.0.9"] ↔
      ("10.0.0.3" ∈ ["10.0.0.2"] ∨ "10.0.0.3" ∈ ["10.0.0.3"])) ∧
    ("10.0.0.9" ∈ discoverNeighbors [] [] ["10.0.0.9"] ↔
      "10.0.0.9" ∈ (["10.0.0.9"] : List String).take 10) :=
  ⟨(c1_neighbor_sources ["10.0.0.2"] ["10.0.0.3"] ["10.0.0.9"]).1
      (Or.inl (by decide)) "10.0.0.3",
   (c1_neighbor_sources [] [] ["10.0.0.9"]).2 rfl rfl "10.0.0.9"⟩

/-- A link between two nodes, from the `NetworkLink` dataclass of
`topology_mapper.py` (the fields the mapper's link handling reads). -/
structure NetworkLink where
  source_id : String
  target_id : String
  source_interface : String
  target_interface : String
  linkType : LinkType
deriving DecidableEq, Repr

/-- `TopologyMapper._link_exists` (topology_mapper.py lines 652-660): a
bidirectional check whether some stored link joins the same endpoint pair, in
either orientation. -/
def linkExists (links : List NetworkLink) (newLink : NetworkLink) : Bool :=
  links.any (fun e =>
    (e.source_id == newLink.source_id && e.target_id == newLink.target_id) ||
    (e.source_id == newLink.target_id && e.target_id == newLink.source_id))

/-- The guarded append of `TopologyMapper._discover_device_links`
(topology_mapper.py lines 305-307): append the new link only when no link with
the same unordered endpoint pair is stored. -/
def addLinkIfNew (links : List NetworkLink) (l : NetworkLink) : List NetworkLink :=
  if linkExists links l then links else links ++ [l]

/-- Two links join the same unordered endpoint pair (either orientation). -/
def sameEndpointPair (e l : NetworkLink) : Prop :=
  (e.source_id = l.source_id ∧ e.target_id = l.target_id) ∨
  (e.source_id = l.target_id ∧ e.target_id = l.source_id)

instance (e l : NetworkLink) : Decidable (sameEndpointPair e l) := by
  unfold sameEndpointPair; infer_instance

/-- The link-list invariant of the spec: at most one stored link per unordered
endpoint pair. -/
def atMostOneLinkPerPair (links : List NetworkLink) : Prop :=
  links.Pairwise (fun e1 e2 => ¬ sameEndpointPair e1 e2)

theorem linkExists_iff (links : List NetworkLink) (l : NetworkLink) :
    linkExists links l = true ↔ ∃ e ∈ links, sameEndpointPair e l := by
  simp [linkExists, sameEndpointPair, List.any_eq_true, beq_iff_eq,
    Bool.or_eq_true, Bool.and_eq_true]

/-- C5: appending a link whose unordered endpoint pair is already stored —
in particular `(B, A)` after `(A, B)` — leaves the link count unchanged, and
the guarded append preserves the at-most-one-link-per-unordered-pair
invariant. -/
theorem c5_link_dedup (links : List NetworkLink) (l : NetworkLink) :
    ((∃ e ∈ links, sameEndpointPair e l) → (addLinkIfNew links l).length = links.length) ∧
    (atMostOneLinkPerPair links → atMostOneLinkPerPair (addLinkIfNew links l)) := by
  constructor
  · intro hdup
    have h : linkExists links l = true := (linkExists_iff links l).mpr hdup
    simp [addLinkIfNew, h]
  · intro hinv
    by_cases h : linkExists links l = true
    · simpa [addLinkIfNew, h] using hinv
    · have hnone : ∀ e ∈ links, ¬ sameEndpointPair e l := by
        intro e he hpair
        exact h ((linkExists_iff links l).mpr ⟨e, he, hpair⟩)
      have hb : linkExists links l = false := by
        cases hx : linkExists links l with
        | false => rfl
        | true => exact absurd hx h
      unfold addLinkIfNew
      rw [hb]
      simp only [Bool.false_eq_true, if_false]
      unfold atMostOneLinkPerPair at hinv ⊢
      rw [List.pairwise_append]
      exact ⟨hinv, List.pairwise_singleton _ _, by
        intro e he l' hl'
        rw [List.mem_singleton] at hl'
        subst hl'
        exact hnone e he⟩

/-- C5 witness: concrete instantiation — a reversed duplicate of the one
stored link is rejected, the count stays 1, and the invariant holds after the
call. -/
theorem c5_link_dedup_witness :
    (addLinkIfNew [⟨"10.0.0.1", "10.0.0.2", "Gi0/1", "Gi0/2", .access⟩]
        ⟨"10.0.0.2", "10.0.0.1", "Gi0/2", "Gi0/1", .access⟩).length =
      [(⟨"10.0.0.1", "10.0.0.2", "Gi0/1", "Gi0/2", .access⟩ : NetworkLink)].length ∧
    atMostOneLinkPerPair
      (addLinkIfNew [⟨"10.0.0.1", "10.0.0.2", "Gi0/1", "Gi0/2", .access⟩]
        ⟨"10.0.0.2", "10.0.0.1", "Gi0/2", "Gi0/1", .access⟩) :=
  ⟨(c5_link_dedup _ _).1 ⟨_, List.mem_singleton_self _, Or.inr ⟨rfl, rfl⟩⟩,
   (c5_link_dedup _ _).2 (List.pairwise_singleton _ _)⟩

/-- A discovered device node, from the `NetworkNode` dataclass of
`topology_mapper.py` (the fields the mapper's node handling reads). -/
structure NetworkNode where
  id : String
  ip_address : String
  hostname : String
  device_type : String
  role : DeviceRole
  vendor : Option String := none
  vlans : List Int := []
deriving DecidableEq, Repr

/-- The mutable discovery state of a `TopologyMapper` run: the
`self.nodes` dictionary (id → node, as an association list in insertion
order) and the `self.links` list. -/
structure MapperState where
  nodes : List (String × NetworkNode)
  links : List NetworkLink
deriving DecidableEq, Repr

/-- Python dictionary assignment `self.nodes[k] = v`: replace the entry at an
existing key, otherwise append a new entry. -/
def dictInsert (m : List (String × NetworkNode)) (k : String) (v : NetworkNode) :
    List (String × NetworkNode) :=
  if m.any (fun p => p.1 == k) then m.map (fun p => if p.1 == k then (k, v) else p)
  else m ++ [(k, v)]

/-- The node registration `self.nodes[node.id] = node` in `discover_topology`
(topology_mapper.py line 116). -/
def addNode (st : MapperState) (n : NetworkNode) : MapperState :=
  { st with nodes := dictInsert st.nodes n.id n }

/-- One CDP/LLDP link-detail record, from the dictionaries produced by
`_get_cdp_link_details` / `_get_lldp_link_details`. -/
structure LinkInfo where
  neighbor_ip : String
  local_interface : String
  remote_interface : String
deriving DecidableEq, Repr

/-- `TopologyMapper._determine_link_type` (topology_mapper.py lines 361-379):
rule-based, first-match-wins link-type inference from the two lowercased
interface names. -/
def determineLinkType (info : LinkInfo) : LinkType :=
  let localIf := strLower info.local_interface
  let remoteIf := strLower info.remote_interface
  if strContains localIf "trunk" || strContains remoteIf "trunk" then .trunk
  else if ["gi0/0", "te", "fo", "uplink"].any (fun x => strContains localIf x) then .uplink
  else if strContains localIf "po" || strContains localIf "port-channel" then .aggregate
  else .access

/-- The `NetworkLink` constructed for one link-detail record in
`_discover_device_links` (topology_mapper.py lines 295-303). -/
def mkDiscoveredLink (ipAddress : String) (info : LinkInfo) : NetworkLink :=
  { source_id := ipAddress, target_id := info.neighbor_ip,
    source_interface := info.local_interface,
    target_interface := info.remote_interface,
    linkType := determineLinkType info }

/-- `TopologyMapper._discover_device_links` (topology_mapper.py lines
282-307): if the probed device is not a registered node, do nothing;
otherwise, for every CDP/LLDP link-detail record whose neighbor is a
registered node, append the corresponding link unless an unordered-pair
duplicate is already stored. -/
def discoverDeviceLinks (st : MapperState) (ipAddress : String)
    (linkInfos : List LinkInfo) : MapperState :=
  if st.nodes.any (fun p => p.1 == ipAddress) then
    { st with
      links := linkInfos.foldl (fun ls info =>
        if st.nodes.any (fun p => p.1 == info.neighbor_ip) then
          addLinkIfNew ls (mkDiscoveredLink ipAddress info)
        else ls) st.links }
  else st

/-- The topology graph: node identifiers and undirected edges. -/
structure Graph where
  nodeIds : List String
  edges : List (String × String)
deriving DecidableEq, Repr

/-- `TopologyMapper._build_topology_graph` (topology_mapper.py lines 527-550):
every registered node becomes a graph node and every stored link whose two
endpoints are registered nodes becomes an edge. -/
def buildTopologyGraph (st : MapperState) : Graph :=
  { nodeIds := st.nodes.map (fun p => p.1),
    edges := st.links.filterMap (fun l =>
      if st.nodes.any (fun p => p.1 == l.source_id) &&
         st.nodes.any (fun p => p.1 == l.target_id) then
        some (l.source_id, l.target_id)
      else none) }

/-- A link's two endpoints are both keys of the node dictionary. -/
def goodLink (st : MapperState) (l : NetworkLink) : Prop :=
  st.nodes.any (fun p => p.1 == l.source_id) = true ∧
  st.nodes.any (fun p => p.1 == l.target_id) = true

instance (st : MapperState) (l : NetworkLink) : Decidable (goodLink st l) := by
  unfold goodLink; infer_instance

/-- The no-dangling-endpoints invariant: every stored link joins two
registered nodes. -/
def noDanglingLinks (st : MapperState) : Prop :=
  ∀ l ∈ st.links, goodLink st l

instance (st : MapperState) : Decidable (noDanglingLinks st) := by
  unfold noDanglingLinks; exact List.decidableBAll _ _

theorem mem_addLinkIfNew {ls : List NetworkLink} {l x : NetworkLink}
    (h : x ∈ addLinkIfNew ls l) : x ∈ ls ∨ x = l := by
  unfold addLinkIfNew at h
  split at h
  · exact Or.inl h
  · rcases List.mem_append.mp h with h' | h'
    · exact Or.inl h'
    · exact Or.inr (List.mem_singleton.mp h')

theorem dictInsert_keeps_key (m : List (String × NetworkNode)) (k : String)
    (v : NetworkNode) (q : String) (h : m.any (fun p => p.1 == q) = true) :
    (dictInsert m k v).any (fun p => p.1 == q) = true := by
  rw [List.any_eq_true] at h
  obtain ⟨p, hp, hpq⟩ := h
  rw [beq_iff_eq] at hpq
  unfold dictInsert
  split
  · rw [List.any_eq_true]
    refine ⟨if p.1 == k then (k, v) else p, List.mem_map_of_mem _ hp, ?_⟩
    by_cases hk : p.1 = k
    · rw [if_pos (by rw [beq_iff_eq]; exact hk)]
      rw [show ((k, v) : String × NetworkNode).1 = k from rfl, beq_iff_eq]
      exact hk ▸ hpq
    · rw [if_neg (by rw [beq_iff_eq]; exact hk), beq_iff_eq]
      exact hpq
  · rw [List.any_eq_true]
    exact ⟨p, List.mem_append_left _ hp, by rw [beq_iff_eq]; exact hpq⟩

theorem goodLink_addNode {st : MapperState} {l : NetworkLink} (n : NetworkNode)
    (h : goodLink st l) : goodLink (addNode st n) l :=
  ⟨dictInsert_keeps_key st.nodes n.id n l.source_id h.1,
   dictInsert_keeps_key st.nodes n.id n l.target_id h.2⟩

theorem discoverDeviceLinks_fold_good (st : MapperState) (ipAddress : String)
    (hip : st.nodes.any (fun p => p.1 == ipAddress) = true) :
    ∀ (linkInfos : List LinkInfo) (ls : List NetworkLink),
      (∀ l ∈ ls, goodLink st l) →
      ∀ l ∈ linkInfos.foldl (fun ls info =>
          if st.nodes.any (fun p => p.1 == info.neighbor_ip) then
            addLinkIfNew ls (mkDiscoveredLink ipAddress info)
          else ls) ls, goodLink st l := by
  intro linkInfos
  induction linkInfos with
  | nil => intro ls hls l hl; exact hls l hl
  | cons info rest ih =>
    intro ls hls l hl
    rw [List.foldl_cons] at hl
    refine ih _ ?_ l hl
    intro l' hl'
    by_cases hn : st.nodes.any (fun p => p.1 == info.neighbor_ip) = true
    · rw [if_pos hn] at hl'
      rcases mem_addLinkIfNew hl' with h' | h'
      · exact hls l' h'
      · subst h'
        exact ⟨hip, hn⟩
    · rw [if_neg hn] at hl'
      exact hls l' hl'

/-- C10: the no-dangling-endpoints invariant is preserved by node
registration and by link discovery, and every edge of the built topology
graph joins two discovered nodes. -/
theorem c10_no_dangling_links (st : MapperState) (n : NetworkNode)
    (ipAddress : String) (linkInfos : List LinkInfo) :
    (noDanglingLinks st → noDanglingLinks (addNode st n)) ∧
    (noDanglingLinks st → noDanglingLinks (discoverDeviceLinks st ipAddress linkInfos)) ∧
    (∀ e ∈ (buildTopologyGraph st).edges,
      e.1 ∈ (buildTopologyGraph st).nodeIds ∧ e.2 ∈ (buildTopologyGraph st).nodeIds) := by
  refine ⟨?_, ?_, ?_⟩
  · intro hinv l hl
    exact goodLink_addNode n (hinv l hl)
  · intro hinv
    unfold discoverDeviceLinks
    by_cases hip : st.nodes.any (fun p => p.1 == ipAddress) = true
    · rw [if_pos hip]
      intro l hl
      exact discoverDeviceLinks_fold_good st ipAddress hip linkInfos st.links hinv l hl
    · rw [if_neg hip]
      exact hinv
  · intro e he
    unfold buildTopologyGraph at he ⊢
    simp only [List.mem_filterMap] at he
    obtain ⟨l, _, hl⟩ := he
    by_cases hg : (st.nodes.any (fun p => p.1 == l.source_id) &&
        st.nodes.any (fun p => p.1 == l.target_id)) = true
    · rw [if_pos hg] at hl
      rw [Bool.and_eq_true] at hg
      obtain ⟨hs, ht⟩ := hg
      rw [List.any_eq_true] at hs ht
      obtain ⟨p, hp, hpe⟩ := hs
      obtain ⟨q, hq, hqe⟩ := ht
      rw [beq_iff_eq] at hpe hqe
      cases hl
      constructor
      · exact List.mem_map.mpr ⟨p, hp, hpe⟩
      · exact List.mem_map.mpr ⟨q, hq, hqe⟩
    · rw [if_neg hg] at hl
      cases hl

/-- C10 witness: a concrete two-node state with one discovered link
satisfies all three conjuncts. -/
theorem c10_no_dangling_links_witness :
    (noDanglingLinks (addNode
      ⟨[("10.0.0.1", ⟨"10.0.0.1", "10.0.0.1", "core-sw1", "switch", .core, none, []⟩),
        ("10.0.0.2", ⟨"10.0.0.2", "10.0.0.2", "acc-sw2", "switch", .access, none, []⟩)], []⟩
      ⟨"10.0.0.3", "10.0.0.3", "edge-r1", "router", .edge, none, []⟩)) ∧
    (noDanglingLinks (discoverDeviceLinks
      ⟨[("10.0.0.1", ⟨"10.0.0.1", "10.0.0.1", "core-sw1", "switch", .core, none, []⟩),
        ("10.0.0.2", ⟨"10.0.0.2", "10.0.0.2", "acc-sw2", "switch", .access, none, []⟩)], []⟩
      "10.0.0.1" [⟨"10.0.0.2", "Gi0/1", "Gi0/2"⟩])) ∧
    (∀ e ∈ (buildTopologyGraph
        ⟨[("10.0.0.1", ⟨"10.0.0.1", "10.0.0.1", "core-sw1", "switch", .core, none, []⟩),
          ("10.0.0.2", ⟨"10.0.0.2", "10.0.0.2", "acc-sw2", "switch", .access, none, []⟩)], []⟩).edges,
      e.1 ∈ (buildTopologyGraph
        ⟨[("10.0.0.1", ⟨"10.0.0.1", "10.0.0.1", "core-sw1", "switch", .core, none, []⟩),
          ("10.0.0.2", ⟨"10.0.0.2", "10.0.0.2", "acc-sw2", "switch", .access, none, []⟩)], []⟩).nodeIds ∧
      e.2 ∈ (buildTopologyGraph
        ⟨[("10.0.0.1", ⟨"10.0.0.1", "10.0.0.1", "core-sw1", "switch", .core, none, []⟩),
          ("10.0.0.2", ⟨"10.0.0.2", "10.0.0.2", "acc-sw2", "switch", .access, none, []⟩)], []⟩).nodeIds) :=
  ⟨(c10_no_dangling_links _ ⟨"10.0.0.3", "10.0.0.3", "edge-r1", "router", .edge, none, []⟩
      "10.0.0.1" [⟨"10.0.0.2", "Gi0/1", "Gi0/2"⟩]).1 (by decide),
   (c10_no_dangling_links _ ⟨"10.0.0.3", "10.0.0.3", "edge-r1", "router", .edge, none, []⟩
      "10.0.0.1" [⟨"10.0.0.2", "Gi0/1", "Gi0/2"⟩]).2.1 (by decide),
   (c10_no_dangling_links _ ⟨"10.0.0.3", "10.0.0.3", "edge-r1", "router", .edge, none, []⟩
      "10.0.0.1" [⟨"10.0.0.2", "Gi0/1", "Gi0/2"⟩]).2.2⟩

/-- `TopologyMapper._get_device_vlans` (topology_mapper.py lines 381-409):
the VLAN ids parsed from the last component of each reported VLAN-table OID
are kept only when within `[1, 4094]`, then returned as `sorted(set(vlans))`
(modelled as dedup followed by an insertion sort). -/
def getDeviceVlans (reported : List Int) : List Int :=
  ((reported.filter (fun v => decide (1 ≤ v) && decide (v ≤ 4094))).dedup).insertionSort (· ≤ ·)

/-- `NetworkDiscovery._get_vlans_snmp` (discovery.py lines 266-291): same
range filter, returned as `list(set(vlans))` (modelled as dedup). -/
def getVlansSnmp (reported : List Int) : List Int :=
  (reported.filter (fun v => decide (1 ≤ v) && decide (v ≤ 4094))).dedup

/-- C6: every VLAN id in a discovered node's VLAN membership list lies in
`[1, 4094]`, whatever VLAN-table OIDs the probed device reports — for both
the topology mapper's and the discovery module's VLAN readers. -/
theorem c6_vlan_range (reported : List Int) (v : Int) :
    (v ∈ getDeviceVlans reported → 1 ≤ v ∧ v ≤ 4094) ∧
    (v ∈ getVlansSnmp reported → 1 ≤ v ∧ v ≤ 4094) := by
  constructor
  · intro hv
    rw [getDeviceVlans, List.mem_insertionSort, List.mem_dedup, List.mem_filter] at hv
    have := hv.2
    rw [Bool.and_eq_true, decide_eq_true_eq, decide_eq_true_eq] at this
    exact this
  · intro hv
    rw [getVlansSnmp, List.mem_dedup, List.mem_filter] at hv
    have := hv.2
    rw [Bool.and_eq_true, decide_eq_true_eq, decide_eq_true_eq] at this
    exact this

/-- C6 witness: the bound established for the VLAN id 10 reported among
out-of-range ids 0 and 5000 (which are both dropped). -/
theorem c6_vlan_range_witness :
    ((10 : Int) ∈ getDeviceVlans [0, 10, 5000] ∧ 1 ≤ (10 : Int) ∧ (10 : Int) ≤ 4094) ∧
    ((10 : Int) ∈ getVlansSnmp [0, 10, 5000] ∧ 1 ≤ (10 : Int) ∧ (10 : Int) ≤ 4094) :=
  ⟨⟨by decide, (c6_vlan_range [0, 10, 5000] 10).1 (by decide)⟩,
   ⟨by decide, (c6_vlan_range [0, 10, 5000] 10).2 (by decide)⟩⟩

/-- Split a character list at every occurrence of the separator, keeping
empty segments, as Python's `str.split(sep)` does. -/
def splitOnChar (sep : Char) : List Char → List (List Char)
  | [] => [[]]
  | c :: rest =>
    let r := splitOnChar sep rest
    if c == sep then [] :: r
    else
      match r with
      | [] => [[c]]
      | h :: t => (c :: h) :: t

/-- Python's `s.split(sep)` for a one-character separator. -/
def strSplit (s : String) (sep : Char) : List String :=
  (splitOnChar sep s.toList).map String.mk

/-- Decimal parse of one dotted-quad octet, modelled from the Python standard
library `ipaddress` rules used by `NetworkDiscovery.discover_network`: only
ASCII digits, at most three of them, no leading zero, value at most 255. -/
def parseOctet (s : String) : Option Nat :=
  let cs := s.toList
  if cs.isEmpty then none
  else if !(cs.all (fun c => c.isDigit)) then none
  else if cs.length > 3 then none
  else if cs.length > 1 && cs.headD '0' == '0' then none
  else
    let n := cs.foldl (fun acc c => acc * 10 + (c.toNat - 48)) 0
    if n ≤ 255 then some n else none

/-- Parse a dotted-quad IPv4 address string. -/
def parseIPv4 (s : String) : Option (Nat × Nat × Nat × Nat) :=
  match (strSplit s '.').map parseOctet with
  | [some a, some b, some c, some d] => some (a, b, c, d)
  | _ => none

/-- Parse a CIDR prefix length: digits only, no leading zero, at most 32. -/
def parseCidrLen (s : String) : Option Nat :=
  let cs := s.toList
  if cs.isEmpty then none
  else if !(cs.all (fun c => c.isDigit)) then none
  else if cs.length > 1 && cs.headD '0' == '0' then none
  else
    let n := cs.foldl (fun acc c => acc * 10 + (c.toNat - 48)) 0
    if n ≤ 32 then some n else none

/-- Modelled from the Python standard library: `ipaddress.ip_network(s,
strict=False)` on IPv4 dotted-quad input — a bare address gets prefix length
32, `addr/len` validates both parts, anything else is a `ValueError`
(`none`). -/
def ipNetwork (s : String) : Option ((Nat × Nat × Nat × Nat) × Nat) :=
  match strSplit s '/' with
  | [addr] => (parseIPv4 addr).map (fun q => (q, 32))
  | [addr, p] =>
    match parseIPv4 addr, parseCidrLen p with
    | some q, some n => some (q, n)
    | _, _ => none
  | _ => none

/-- `NetworkDiscovery.discover_network` (discovery.py lines 67-109): the
network range is parsed first; a parse failure raises `ValueError` before any
ARP scanning or per-host discovery work.  The whole scan phase (ARP scan plus
threaded per-host discovery) is supplied as the environment `scan`, which the
error path never consults. -/
def discoverNetwork {D : Type} (scan : ((Nat × Nat × Nat × Nat) × Nat) → List D)
    (networkRange : String) : Except String (List D) :=
  match ipNetwork networkRange with
  | none => .error ("Invalid network range: " ++ networkRange)
  | some net => .ok (scan net)

/-- C7: on a syntactically invalid network range the discovery entry point
fails hard with an invalid-input error, independently of the scanning
environment — so no scanning work is performed and no partial result is
produced. -/
theorem c7_invalid_range_hard_error {D D' : Type} (s : String)
    (h : ipNetwork s = none)
    (scan : ((Nat × Nat × Nat × Nat) × Nat) → List D)
    (scanOther : ((Nat × Nat × Nat × Nat) × Nat) → List D') :
    discoverNetwork scan s = .error ("Invalid network range: " ++ s) ∧
    discoverNetwork scanOther s = .error ("Invalid network range: " ++ s) := by
  unfold discoverNetwork
  rw [h]
  exact ⟨rfl, rfl⟩

/-- C7 witness: the invalid octet range "300.1.1.0/24" is rejected before any
scan, for two scanning environments of different result types. -/
theorem c7_invalid_range_hard_error_witness :
    discoverNetwork (fun _ => ([0] : List Nat)) "300.1.1.0/24" =
      .error ("Invalid network range: " ++ "300.1.1.0/24") ∧
    discoverNetwork (fun _ => (["device"] : List String)) "300.1.1.0/24" =
      .error ("Invalid network range: " ++ "300.1.1.0/24") :=
  c7_invalid_range_hard_error "300.1.1.0/24" (by decide)
    (fun _ => ([0] : List Nat)) (fun _ => (["device"] : List String))

/-- Neighbors of a vertex in the undirected topology graph. -/
def adjacent (g : Graph) (v : String) : List String :=
  g.edges.filterMap (fun e => if e.1 == v then some e.2 else none) ++
  g.edges.filterMap (fun e => if e.2 == v then some e.1 else none)

/-- One breadth-first expansion step of a reached-vertex set. -/
def expandOnce (g : Graph) (s : List String) : List String :=
  (s ++ s.flatMap (adjacent g)).dedup

/-- The vertices reached from `v` after `n` expansion steps. -/
def reachFrom (g : Graph) (v : String) : Nat → List String
  | 0 => [v]
  | n + 1 => expandOnce g (reachFrom g v n)

/-- All vertices reachable from `v`: node-count many expansion steps reach
the fixpoint. -/
def reachable (g : Graph) (v : String) : List String :=
  reachFrom g v g.nodeIds.length

/-- `networkx.is_connected`, modelled by breadth-first reachability; on the
null (empty) graph the library raises `NetworkXPointlessConcept`, modelled as
the error case. -/
def isConnectedE (g : Graph) : Except String Bool :=
  match g.nodeIds with
  | [] => .error "Connectivity is undefined for the null graph."
  | v :: _ => .ok (g.nodeIds.all (fun w => (reachable g v).contains w))

/-- Canonical representative of a vertex's connected component: the first
graph node that reaches it. -/
def componentRep (g : Graph) (v : String) : String :=
  (g.nodeIds.find? (fun u => (reachable g u).contains v)).getD v

/-- Number of connected components of the graph. -/
def countComponents (g : Graph) : Nat :=
  ((g.nodeIds.map (componentRep g)).dedup).length

/-- Delete a vertex and its incident edges. -/
def removeNode (g : Graph) (v : String) : Graph :=
  { nodeIds := g.nodeIds.filter (fun u => u != v),
    edges := g.edges.filter (fun e => e.1 != v && e.2 != v) }

/-- `networkx.articulation_points`, modelled by its defining property: a
vertex whose removal increases the number of connected components. -/
def articulationPoints (g : Graph) : List String :=
  g.nodeIds.filter (fun v => countComponents g < countComponents (removeNode g v))

/-- `TopologyMapper._find_single_points_of_failure` (topology_mapper.py lines
612-623): when the graph is connected, report the hostname of every
articulation point that is a registered node; otherwise the `if` guard is
skipped and the function returns the still-empty `spof` list. -/
def findSinglePointsOfFailure (nodes : List (String × NetworkNode)) (g : Graph) :
    Except String (List String) :=
  match isConnectedE g with
  | .error e => .error e
  | .ok true =>
    .ok ((articulationPoints g).filterMap (fun v =>
      (nodes.find? (fun p => p.1 == v)).map (fun p => p.2.hostname)))
  | .ok false => .ok []

/-- C2 counterexample: on a concrete disconnected two-node graph the
articulation-point analysis returns `.ok []` — an ordinary (empty) result
list of exactly the same shape as a valid articulation-point list — instead
of any distinguished "undefined — disconnected" signal. -/
theorem c2_counterexample :
    isConnectedE ⟨["10.0.0.1", "10.0.0.2"], []⟩ = .ok false ∧
    findSinglePointsOfFailure
      [("10.0.0.1", ⟨"10.0.0.1", "10.0.0.1", "sw1", "switch", .access, none, []⟩),
       ("10.0.0.2", ⟨"10.0.0.2", "10.0.0.2", "sw2", "switch", .access, none, []⟩)]
      ⟨["10.0.0.1", "10.0.0.2"], []⟩ = .ok [] :=
  ⟨rfl, rfl⟩

/-- C2 (amended): on every disconnected graph the single-point-of-failure
analysis silently returns the empty list — the same type of value as a valid
articulation-point list — rather than signalling the precondition
violation. -/
theorem c2_spof_disconnected_silent (nodes : List (String × NetworkNode))
    (g : Graph) (h : isConnectedE g = .ok false) :
    findSinglePointsOfFailure nodes g = .ok [] := by
  unfold findSinglePointsOfFailure
  rw [h]

/-- C2 witness: the amended statement instantiated on the concrete
disconnected two-node graph. -/
theorem c2_spof_disconnected_silent_witness :
    findSinglePointsOfFailure
      [("10.0.0.1", ⟨"10.0.0.1", "10.0.0.1", "sw1", "switch", .access, none, []⟩),
       ("10.0.0.2", ⟨"10.0.0.2", "10.0.0.2", "sw2", "switch", .access, none, []⟩)]
      ⟨["10.0.0.1", "10.0.0.2"], []⟩ = .ok [] :=
  c2_spof_disconnected_silent _ _ rfl

section DiscoveryLoop

/-- The breadth-first discovery loop of `TopologyMapper.discover_topology`
(topology_mapper.py lines 103-127), observed through the sequence of IPs it
probes (the calls to `_discover_device_node`).  IPs are drawn from a finite
type `V` — neighbor candidates pass `_is_valid_ip`, so they range over the
finite set of valid address strings.  The probe environment `env` answers
`none` when `_discover_device_node` returns `None` (device unreachable) and
`some nbrs` for a successful probe with neighbor list `nbrs`; a successful
probe marks the IP discovered and enqueues its neighbors that are neither
discovered nor already pending.  `to_discover` is a Python set popped in
unspecified order; the model fixes one compliant order (FIFO) and models set
insertion by not enqueuing an IP already pending.  Totality of this
definition (it is well-founded recursion on the pair: undiscovered-IP count,
worklist length) is the loop's termination. -/
def discoverTrace {V : Type} [DecidableEq V] [Fintype V]
    (env : V → Option (List V)) (disc : Finset V) : List V → List V
  | [] => []
  | ip :: rest =>
    if h : ip ∈ disc then discoverTrace env disc rest
    else
      match env ip with
      | none => ip :: discoverTrace env disc rest
      | some nbrs =>
        ip :: discoverTrace env (insert ip disc)
          (rest ++ (nbrs.filter (fun x => x ∉ insert ip disc ∧ x ∉ rest)).dedup)
termination_by work => ((Finset.univ \ disc).card, work.length)
decreasing_by
  · exact Prod.Lex.right _ (Nat.lt_succ_self _)
  · exact Prod.Lex.right _ (Nat.lt_succ_self _)
  · apply Prod.Lex.left
    have h1 : Finset.univ \ insert ip disc ⊆ Finset.univ \ disc :=
      Finset.sdiff_subset_sdiff (Finset.Subset.refl _) (Finset.subset_insert ip disc)
    have h2 : ip ∈ Finset.univ \ disc := Finset.mem_sdiff.mpr ⟨Finset.mem_univ ip, h⟩
    have h3 : ip ∉ Finset.univ \ insert ip disc := fun hc =>
      (Finset.mem_sdiff.mp hc).2 (Finset.mem_insert_self ip disc)
    exact Finset.card_lt_card ((Finset.ssubset_iff_of_subset h1).mpr ⟨ip, h2, h3⟩)

theorem discoverTrace_nil {V : Type} [DecidableEq V] [Fintype V]
    (env : V → Option (List V)) (disc : Finset V) :
    discoverTrace env disc [] = [] := by
  rw [discoverTrace.eq_def]

theorem discoverTrace_skip {V : Type} [DecidableEq V] [Fintype V]
    (env : V → Option (List V)) (disc : Finset V)
    (ip : V) (rest : List V) (h : ip ∈ disc) :
    discoverTrace env disc (ip :: rest) = discoverTrace env disc rest := by
  rw [discoverTrace.eq_def]
  simp [h]

theorem discoverTrace_fail {V : Type} [DecidableEq V] [Fintype V]
    (env : V → Option (List V)) (disc : Finset V)
    (ip : V) (rest : List V) (h : ip ∉ disc) (he : env ip = none) :
    discoverTrace env disc (ip :: rest) = ip :: discoverTrace env disc rest := by
  rw [discoverTrace.eq_def]
  simp [h, he]

theorem discoverTrace_success {V : Type} [DecidableEq V] [Fintype V]
    (env : V → Option (List V)) (disc : Finset V)
    (ip : V) (rest : List V) (nbrs : List V) (h : ip ∉ disc) (he : env ip = some nbrs) :
    discoverTrace env disc (ip :: rest) =
      ip :: discoverTrace env (insert ip disc)
        (rest ++ (nbrs.filter (fun x => x ∉ insert ip disc ∧ x ∉ rest)).dedup) := by
  rw [discoverTrace.eq_def]
  simp [h, he]

theorem not_mem_discoverTrace {V : Type} [DecidableEq V] [Fintype V]
    (env : V → Option (List V)) (disc : Finset V)
    (work : List V) (x : V) (hx : x ∈ disc) : x ∉ discoverTrace env disc work := by
  match work with
  | [] =>
    rw [discoverTrace_nil]
    exact List.not_mem_nil x
  | ip :: rest =>
    by_cases h : ip ∈ disc
    · rw [discoverTrace_skip env disc ip rest h]
      exact not_mem_discoverTrace env disc rest x hx
    · cases he : env ip with
      | none =>
        rw [discoverTrace_fail env disc ip rest h he]
        intro hc
        rcases List.mem_cons.mp hc with rfl | hc'
        · exact h hx
        · exact not_mem_discoverTrace env disc rest x hx hc'
      | some nbrs =>
        rw [discoverTrace_success env disc ip rest nbrs h he]
        intro hc
        rcases List.mem_cons.mp hc with rfl | hc'
        · exact h hx
        · exact not_mem_discoverTrace env (insert ip disc) _ x
            (Finset.mem_insert_of_mem hx) hc'
termination_by ((Finset.univ \ disc).card, work.length)
decreasing_by
  · exact Prod.Lex.right _ (Nat.lt_succ_self _)
  · exact Prod.Lex.right _ (Nat.lt_succ_self _)
  · apply Prod.Lex.left
    have h1 : Finset.univ \ insert ip disc ⊆ Finset.univ \ disc :=
      Finset.sdiff_subset_sdiff (Finset.Subset.refl _) (Finset.subset_insert ip disc)
    have h2 : ip ∈ Finset.univ \ disc := Finset.mem_sdiff.mpr ⟨Finset.mem_univ ip, h⟩
    have h3 : ip ∉ Finset.univ \ insert ip disc := fun hc =>
      (Finset.mem_sdiff.mp hc).2 (Finset.mem_insert_self ip disc)
    exact Finset.card_lt_card ((Finset.ssubset_iff_of_subset h1).mpr ⟨ip, h2, h3⟩)

/-- C4 (amended): the discovery loop terminates (`discoverTrace` is total, by
well-founded recursion on the undiscovered-IP count and the worklist length),
and no IP whose probe succeeds is ever probed a second time: the successful
entries of the probe trace are pairwise distinct.  (Unreachable IPs, whose
probe fails, may be re-probed when reported again later — see the
counterexample.) -/
theorem c4_successful_probes_nodup {V : Type} [DecidableEq V] [Fintype V]
    (env : V → Option (List V)) (disc : Finset V)
    (work : List V) :
    ((discoverTrace env disc work).filter (fun ip => (env ip).isSome)).Nodup := by
  match work with
  | [] =>
    rw [discoverTrace_nil]
    exact List.nodup_nil
  | ip :: rest =>
    by_cases h : ip ∈ disc
    · rw [discoverTrace_skip env disc ip rest h]
      exact c4_successful_probes_nodup env disc rest
    · cases he : env ip with
      | none =>
        rw [discoverTrace_fail env disc ip rest h he]
        rw [List.filter_cons]
        have hp : ((env ip).isSome) = false := by rw [he]; rfl
        rw [hp]
        simp only [Bool.false_eq_true, if_false]
        exact c4_successful_probes_nodup env disc rest
      | some nbrs =>
        rw [discoverTrace_success env disc ip rest nbrs h he]
        rw [List.filter_cons]
        have hp : ((env ip).isSome) = true := by rw [he]; rfl
        rw [hp]
        simp only [if_true]
        rw [List.nodup_cons]
        constructor
        · intro hmem
          exact not_mem_discoverTrace env (insert ip disc) _ ip
            (Finset.mem_insert_self ip disc) (List.mem_of_mem_filter hmem)
        · exact c4_successful_probes_nodup env (insert ip disc) _
termination_by ((Finset.univ \ disc).card, work.length)
decreasing_by
  · exact Prod.Lex.right _ (Nat.lt_succ_self _)
  · exact Prod.Lex.right _ (Nat.lt_succ_self _)
  · apply Prod.Lex.left
    have h1 : Finset.univ \ insert ip disc ⊆ Finset.univ \ disc :=
      Finset.sdiff_subset_sdiff (Finset.Subset.refl _) (Finset.subset_insert ip disc)
    have h2 : ip ∈ Finset.univ \ disc := Finset.mem_sdiff.mpr ⟨Finset.mem_univ ip, h⟩
    have h3 : ip ∉ Finset.univ \ insert ip disc := fun hc =>
      (Finset.mem_sdiff.mp hc).2 (Finset.mem_insert_self ip disc)
    exact Finset.card_lt_card ((Finset.ssubset_iff_of_subset h1).mpr ⟨ip, h2, h3⟩)

end DiscoveryLoop

/-- A three-address probe environment: address 0 responds and reports
neighbors 1 and 2; address 1 never responds; address 2 responds and reports
neighbor 1. -/
def env3 : Fin 3 → Option (List (Fin 3)) :=
  fun v => if v = 0 then some [1, 2] else if v = 1 then none else some [1]

/-- C4 counterexample: starting from seed 0 under `env3`, the unreachable
address 1 is popped and probed, dropped without being marked discovered,
re-enqueued when device 2 later reports it, and probed a second time — the
probe trace is [0, 1, 2, 1], so an IP is processed as the current frontier
element twice. -/
theorem c4_counterexample :
    discoverTrace env3 (∅ : Finset (Fin 3)) [0] = [0, 1, 2, 1] ∧
    ¬ (discoverTrace env3 (∅ : Finset (Fin 3)) [0]).Nodup := by
  have s1 : discoverTrace env3 (∅ : Finset (Fin 3)) [0] =
      0 :: discoverTrace env3 (insert 0 ∅) [1, 2] := by
    rw [discoverTrace_success env3 ∅ 0 [] [1, 2] (by decide) rfl]
    congr 1
  have s2 : discoverTrace env3 (insert 0 (∅ : Finset (Fin 3))) [1, 2] =
      1 :: discoverTrace env3 (insert 0 ∅) [2] :=
    discoverTrace_fail env3 (insert 0 ∅) 1 [2] (by decide) rfl
  have s3 : discoverTrace env3 (insert 0 (∅ : Finset (Fin 3))) [2] =
      2 :: discoverTrace env3 (insert 2 (insert 0 ∅)) [1] := by
    rw [discoverTrace_success env3 (insert 0 ∅) 2 [] [1] (by decide) rfl]
    congr 1
  have s4 : discoverTrace env3 (insert 2 (insert 0 (∅ : Finset (Fin 3)))) [1] =
      1 :: discoverTrace env3 (insert 2 (insert 0 ∅)) [] :=
    discoverTrace_fail env3 (insert 2 (insert 0 ∅)) 1 [] (by decide) rfl
  have s5 : discoverTrace env3 (insert 2 (insert 0 (∅ : Finset (Fin 3)))) [] = [] :=
    discoverTrace_nil env3 (insert 2 (insert 0 ∅))
  have heq : discoverTrace env3 (∅ : Finset (Fin 3)) [0] = [0, 1, 2, 1] := by
    rw [s1, s2, s3, s4, s5]
  refine ⟨heq, ?_⟩
  rw [heq]
  decide

end VLANVision
